import Mathlib

/-!
Verification of the M-Pesa STK Push integration (Flask application).

This file shallowly embeds the data model and the operations of the
repository in Lean: pure Python functions become Lean functions, the
mutable token cache becomes explicit state passing, machine/float
numbers become rationals, and fallible code returns `Except`.  Each
definition is translated from the corresponding source function; the
theorems at the end of the file settle the specification claims.
-/

/-- Model of a JSON value, as produced by Flask's `request.get_json()`
and by `response.json()` in the `requests` library.  Python numbers
(int and float) are modelled as rationals. -/
inductive Json where
  | null : Json
  | bool (b : Bool) : Json
  | num (q : ℚ) : Json
  | str (s : String) : Json
  | arr (elems : List Json) : Json
  | obj (fields : List (String × Json)) : Json

/-- Association-list lookup, the model of a Python dict read
(objects obtained from parsed JSON have distinct keys). -/
def lookupJ (k : String) : List (String × Json) → Option Json
  | [] => none
  | (k', v) :: rest => if k' = k then some v else lookupJ k rest

/-- Python truthiness (`if x:`) for the JSON values that can reach the
handlers: `None`, `False`, `0`, `""`, `[]` and the empty dict are falsy. -/
def jsonTruthy : Json → Bool
  | .null => false
  | .bool b => b
  | .num q => q ≠ 0
  | .str s => s ≠ ""
  | .arr elems => !elems.isEmpty
  | .obj fields => !fields.isEmpty

/-- A Python exception value: `requests.RequestException` (and its
subclasses) versus any other `Exception`.  The two kinds are what the
repository's `try/except` ladders distinguish. -/
inductive PyExc where
  | requestException (msg : String) : PyExc
  | exception (msg : String) : PyExc

/-- Model of `x.get(key, default)` on a value `x` of unknown shape:
on a dict it is a defaulted lookup, on anything else Python raises
`AttributeError` (an ordinary `Exception`). -/
def pyGet (j : Json) (k : String) (d : Json) : Except PyExc Json :=
  match j with
  | .obj fields => pure ((lookupJ k fields).getD d)
  | _ => throw (.exception "AttributeError: object has no attribute get")

/-- Model of iterating `for item in items` where a list is expected:
on a JSON array it yields the elements, on anything else the loop body's
`item.get` raises. -/
def jsonAsList (j : Json) : Except PyExc (List Json) :=
  match j with
  | .arr elems => pure elems
  | _ => throw (.exception "TypeError: object is not a list of dicts")

/-- Model of reading a JSON value where a dict is expected
(`response_data.get` raises on a non-dict). -/
def jsonAsObj (j : Json) : Except PyExc (List (String × Json)) :=
  match j with
  | .obj fields => pure fields
  | _ => throw (.exception "AttributeError: object has no attribute get")

/-- Python `==` between a JSON value and an integer constant: numbers
compare numerically, booleans compare as 0/1, every other type is
unequal (`"0" == 0` is `False` in Python). -/
def pyEqInt (j : Json) (n : ℤ) : Bool :=
  match j with
  | .num q => q = (n : ℚ)
  | .bool b => (cond b 1 0 : ℤ) = n
  | _ => false

/-- Python `==` between a value and a string constant: only equal
strings compare equal (`None == '0'` and `0 == '0'` are `False`). -/
def pyEqStr (j : Json) (s : String) : Bool :=
  match j with
  | .str t => t = s
  | _ => false

/-- `x.get(key) == s` for an optional dict read: absent keys give
`None`, which is unequal to every string. -/
def optEqStr (a : Option Json) (s : String) : Bool :=
  match a with
  | some v => pyEqStr v s
  | none => false

/-- Python whitespace stripping, `s.strip()`. -/
def pyStrip (s : List Char) : List Char :=
  ((s.dropWhile Char.isWhitespace).reverse.dropWhile Char.isWhitespace).reverse

/-- `s.isdigit()`: true on a non-empty string of digits. -/
def pyIsDigit (s : List Char) : Bool :=
  s ≠ [] && s.all Char.isDigit

/-- Numeric value of a digit string. -/
def digitsVal (l : List Char) : ℕ :=
  l.foldl (fun a c => 10 * a + (c.toNat - '0'.toNat)) 0

/-- Unsigned part of a decimal literal: digits with an optional
fractional part, as accepted by Python's `float()`. -/
def parseUnsigned (t : List Char) : Option ℚ :=
  let ip := t.takeWhile Char.isDigit
  let r := t.drop ip.length
  match r with
  | [] => if ip = [] then none else some (digitsVal ip)
  | '.' :: fp =>
      if fp.all Char.isDigit ∧ (ip ≠ [] ∨ fp ≠ []) then
        some ((digitsVal ip : ℚ) + (digitsVal fp : ℚ) / (10 ^ fp.length))
      else none
  | _ => none

/-- Model of `float(s)` on a string: surrounding whitespace, an optional
sign and a decimal literal (the exponent/infinity forms are not used by
the repository or its callers). -/
def parseDecimal (s : List Char) : Option ℚ :=
  match pyStrip s with
  | '-' :: r => (parseUnsigned r).map (fun q => -q)
  | '+' :: r => parseUnsigned r
  | r => parseUnsigned r

/-- A Python value reaching `float(amount)`: a number (int/float/bool
is numeric in Python), a string, `None`, or some other object. -/
inductive PyVal where
  | num (q : ℚ) : PyVal
  | str (s : List Char) : PyVal
  | none_ : PyVal
  | obj : PyVal
deriving DecidableEq

/-- Model of `float(amount)`: numbers convert exactly, strings are
parsed, `None` and other objects raise (`TypeError`), which the
validators catch. -/
def pyFloat : PyVal → Option ℚ
  | .num q => some q
  | .str s => parseDecimal s
  | .none_ => none
  | .obj => none

/-- Model of `int(x)` on a float: truncation toward zero. -/
def pyInt (q : ℚ) : ℤ :=
  if 0 ≤ q then ⌊q⌋ else ⌈q⌉

/-- Model of `str(value)` on a JSON value (exact on strings, the only
case the callback payloads exercise; numeric rendering is the rational
one). -/
def pyStr : Json → String
  | .str s => s
  | .num q => toString q
  | .bool b => cond b "True" "False"
  | .null => "None"
  | .arr _ => "[...]"
  | .obj _ => "\x7b...\x7d"

/-! ## Token cache

`app.py` (`get_cached_access_token`, lines 56-79) and
`src/services/mpesa_service.py` (`TokenManager.get_access_token`,
lines 25-45) implement the same cache: under the lock, return the
cached token while `now < expires_at`, otherwise fetch a new token and
store it with `expires_at = now + 55 minutes`.  The clock and the
fetched token are explicit parameters here; the third component of the
result counts the upstream fetches the call performed. -/

/-- `AccessToken` from `src/models/mpesa.py`: a token together with its
expiry instant (time is measured in minutes). -/
structure AccessToken where
  token : String
  expires_at : ℕ
deriving DecidableEq

/-- Documented validity of a gateway token, in minutes. -/
def tokenValidityMinutes : ℕ := 60

/-- Safety buffer subtracted from the validity ("5 minutes buffer"). -/
def tokenSafetyBufferMinutes : ℕ := 5

/-- `AccessToken.is_expired`: `datetime.now() >= self.expires_at`. -/
def AccessToken.is_expired (t : AccessToken) (now : ℕ) : Bool :=
  now ≥ t.expires_at

/-- `AccessToken.is_valid`: `not self.is_expired`. -/
def AccessToken.is_valid (t : AccessToken) (now : ℕ) : Bool :=
  !(t.is_expired now)

/-- `get_cached_access_token` / `TokenManager.get_access_token` for one
credential pair: `cache` is the entry currently stored for the pair,
`now` the current time, `fetched` the token the authentication endpoint
would return.  Result: the returned token, the cache entry after the
call, and the number of upstream fetches performed (0 or 1). -/
def get_access_token (cache : Option AccessToken) (now : ℕ) (fetched : String) :
    String × Option AccessToken × ℕ :=
  match cache with
  | some entry =>
      if entry.is_valid now then
        (entry.token, some entry, 0)
      else
        (fetched, some ⟨fetched, now + 55⟩, 1)
  | none => (fetched, some ⟨fetched, now + 55⟩, 1)

/-! ## Validators

`validate_phone_number` / `validate_amount` from `app.py` (lines
174-211) and `PhoneNumberValidator.validate` /
`AmountValidator.validate` from `src/utils/validators.py`.  Phone
numbers are strings of characters, modelled as `List Char`. -/

/-- `validate_phone_number` from `app.py`: strip, require digits, then
dispatch on the `254` / `07`,`01` / `7`,`1` prefix with the matching
exact length.  Returns `(formatted_number, error_message)`. -/
def validate_phone_number (s₀ : List Char) : Option (List Char) × Option String :=
  if s₀ = [] then (none, some "Phone number is required")
  else
    let s := pyStrip s₀
    if ¬ pyIsDigit s then (none, some "Phone number must contain only digits")
    else if List.isPrefixOf ['2', '5', '4'] s then
      if s.length = 12 then (some s, none)
      else (none, some "Invalid phone number format")
    else if List.isPrefixOf ['0', '7'] s ∨ List.isPrefixOf ['0', '1'] s then
      if s.length = 10 then (some (['2', '5', '4'] ++ s.drop 1), none)
      else (none, some "Invalid phone number format")
    else if List.isPrefixOf ['7'] s ∨ List.isPrefixOf ['1'] s then
      if s.length = 9 then (some (['2', '5', '4'] ++ s), none)
      else (none, some "Invalid phone number format")
    else (none, some "Phone number must start with 254, 07, 01, 7, or 1")

namespace PhoneNumberValidator

/-- Regex `^254[0-9]{9}$` (`KENYAN_PHONE_PATTERN`). -/
def matchKenyan (s : List Char) : Prop :=
  List.isPrefixOf ['2', '5', '4'] s ∧ s.length = 12 ∧ s.all Char.isDigit

/-- Regex `^0[0-9]{9}$` (`LOCAL_PHONE_PATTERN`): any ten-digit string
whose first character is `0`. -/
def matchLocal (s : List Char) : Prop :=
  List.isPrefixOf ['0'] s ∧ s.length = 10 ∧ s.all Char.isDigit

/-- Regex `^[0-9]{9}$` (`SHORT_PHONE_PATTERN`). -/
def matchShort (s : List Char) : Prop :=
  s.length = 9 ∧ s.all Char.isDigit

instance (s : List Char) : Decidable (matchKenyan s) := by
  unfold matchKenyan; infer_instance

instance (s : List Char) : Decidable (matchLocal s) := by
  unfold matchLocal; infer_instance

instance (s : List Char) : Decidable (matchShort s) := by
  unfold matchShort; infer_instance

/-- The cleaning step of `PhoneNumberValidator.validate`:
`phone_number.strip().replace(' ', '').replace('-', '').replace('+', '')`. -/
def clean (s : List Char) : List Char :=
  (pyStrip s).filter (fun c => ¬ (c = ' ' ∨ c = '-' ∨ c = '+'))

/-- `PhoneNumberValidator.validate` from `src/utils/validators.py`:
strip, drop spaces / dashes / plus signs, require digits, then match
the three regex patterns in order. -/
def validate (s₀ : List Char) : Option (List Char) × Option String :=
  if s₀ = [] then (none, some "Phone number is required")
  else
    let s := clean s₀
    if ¬ pyIsDigit s then (none, some "Phone number must contain only digits")
    else if matchKenyan s then (some s, none)
    else if matchLocal s then (some (['2', '5', '4'] ++ s.drop 1), none)
    else if matchShort s ∧ (List.isPrefixOf ['7'] s ∨ List.isPrefixOf ['1'] s) then
      (some (['2', '5', '4'] ++ s), none)
    else
      (none, some "Invalid phone number format. Use 254XXXXXXXXX, 07XXXXXXXX, or 7XXXXXXXX")

end PhoneNumberValidator

/-- `validate_amount` from `app.py`: `float(amount)` under
`try/except`, then reject non-positive values and values above the
sandbox limit of 70000. -/
def validate_amount (v : PyVal) : Option ℚ × Option String :=
  match pyFloat v with
  | none => (none, some "Invalid amount format")
  | some q =>
      if q ≤ 0 then (none, some "Amount must be greater than 0")
      else if q > 70000 then (none, some "Amount cannot exceed 70,000 KES")
      else (some q, none)

namespace AmountValidator

/-- `MIN_AMOUNT` from `src/utils/validators.py`. -/
def MIN_AMOUNT : ℚ := 1

/-- `MAX_AMOUNT` from `src/utils/validators.py` (sandbox limit). -/
def MAX_AMOUNT : ℚ := 70000

/-- `AmountValidator.validate` from `src/utils/validators.py`: reject
`None`, convert with `float(amount)` under `try/except`, then apply
the `≤ 0` and `> MAX_AMOUNT` checks. -/
def validate (v : PyVal) : Option ℚ × Option String :=
  if v = PyVal.none_ then (none, some "Amount is required")
  else
    match pyFloat v with
    | none => (none, some "Amount must be a valid number")
    | some q =>
        if q ≤ 0 then (none, some "Amount must be greater than 1")
        else if q > MAX_AMOUNT then (none, some "Amount cannot exceed 70000 KES")
        else (some q, none)

end AmountValidator

/-! ## Request and response models (`src/models/mpesa.py`) -/

/-- The fields of the dataclass `STKPushRequest` after
`__post_init__` has run (phone formatted, defaults filled in). -/
structure STKPushRequest where
  phone_number : String
  amount : ℚ
  reference : String
  description : String

/-- The payload dict built by `STKPushRequest.to_mpesa_payload`
(and, with the same fields, by `initiate_stk_push` in `app.py`
lines 122-134). -/
structure MpesaPayload where
  BusinessShortCode : ℤ
  Password : String
  Timestamp : String
  TransactionType : String
  Amount : ℤ
  PartyA : String
  PartyB : ℤ
  PhoneNumber : String
  CallBackURL : String
  AccountReference : String
  TransactionDesc : String
deriving DecidableEq

/-- `STKPushRequest.to_mpesa_payload`: the `Amount` field is
`int(self.amount)`, a truncation of the validated float. -/
def STKPushRequest.to_mpesa_payload (r : STKPushRequest)
    (business_shortcode : ℤ) (password timestamp callback_url : String) :
    MpesaPayload :=
  { BusinessShortCode := business_shortcode
    Password := password
    Timestamp := timestamp
    TransactionType := "CustomerPayBillOnline"
    Amount := pyInt r.amount
    PartyA := r.phone_number
    PartyB := business_shortcode
    PhoneNumber := r.phone_number
    CallBackURL := callback_url
    AccountReference := r.reference
    TransactionDesc := r.description }

/-- The payload dict built inline by `initiate_stk_push` in `app.py`:
identical field-for-field, with `Amount: int(amount)` and
`TransactionDesc` an f-string over the un-truncated amount. -/
def app_stk_payload (phone_number : String) (amount : ℚ) (reference : String)
    (business_shortcode : ℤ) (password timestamp callback_url : String) :
    MpesaPayload :=
  { BusinessShortCode := business_shortcode
    Password := password
    Timestamp := timestamp
    TransactionType := "CustomerPayBillOnline"
    Amount := pyInt amount
    PartyA := phone_number
    PartyB := business_shortcode
    PhoneNumber := phone_number
    CallBackURL := callback_url
    AccountReference := reference
    TransactionDesc := "Payment of KES " ++ toString amount }

/-- The dataclass `STKPushResponse`.  Fields that hold raw gateway
values are `Option Json` (`None` in Python when absent). -/
structure STKPushResponse where
  success : Bool
  message : String
  merchant_request_id : Option Json := none
  checkout_request_id : Option Json := none
  response_code : Option Json := none
  response_description : Option Json := none

/-- Python `a or b` where `a` is the result of a defaulted-to-`None`
dict read: keep `a` when it is present and truthy, otherwise `b`. -/
def pyOrElse (a : Option Json) (b : Json) : Json :=
  match a with
  | some v => if jsonTruthy v then v else b
  | none => b

/-- `result.get('errorMessage') or result.get('ResponseDescription',
'Unknown error')`, the error message selected by both
`STKPushResponse.from_mpesa_response` and `handle_stk_push`. -/
def gatewayErrorMessage (response_data : List (String × Json)) : Json :=
  pyOrElse (lookupJ "errorMessage" response_data)
    ((lookupJ "ResponseDescription" response_data).getD (Json.str "Unknown error"))

/-- `STKPushResponse.from_mpesa_response`: success iff the
`ResponseCode` field equals the string `"0"`. -/
def STKPushResponse.from_mpesa_response (response_data : List (String × Json)) :
    STKPushResponse :=
  if optEqStr (lookupJ "ResponseCode" response_data) "0" then
    { success := true
      message := "STK push sent successfully. Please check your phone."
      merchant_request_id := lookupJ "MerchantRequestID" response_data
      checkout_request_id := lookupJ "CheckoutRequestID" response_data
      response_code := lookupJ "ResponseCode" response_data
      response_description := lookupJ "ResponseDescription" response_data }
  else
    { success := false
      message := "STK push failed: " ++ pyStr (gatewayErrorMessage response_data)
      response_code := lookupJ "ResponseCode" response_data
      response_description := lookupJ "ResponseDescription" response_data }

/-- `STKPushResponse.error`: the structured rejection constructor. -/
def STKPushResponse.error (message : String) : STKPushResponse :=
  { success := false, message := message }

/-! ## Payment initiation (`initiate_stk_push`)

The two calls that can fail — the token fetch inside
`get_cached_access_token` / `TokenManager.get_access_token` and the
payment `requests.post` together with `response.json()` — are passed
in as `Except` oracles; the body threads their exceptions and the
outer function is the `try/except` ladder of the source. -/

/-- The `try` body of `initiate_stk_push` in `app.py` (lines 113-154):
obtain the token, perform the POST and JSON-decode it.  An exception
in either step propagates. -/
def initiate_stk_push_app_attempt (tok : Except PyExc String)
    (post : Except PyExc Json) : Except PyExc Json := do
  let _accessToken ← tok
  let result ← post
  return result

/-- `initiate_stk_push` in `app.py`: the body wrapped by
`except requests.RequestException` and `except Exception`, each
returning a `ResponseCode "1"` dict instead of raising. -/
def initiate_stk_push_app (tok : Except PyExc String)
    (post : Except PyExc Json) : Json :=
  match initiate_stk_push_app_attempt tok post with
  | .ok j => j
  | .error (.requestException m) =>
      Json.obj [("ResponseCode", Json.str "1"),
                ("errorMessage", Json.str ("Network error: " ++ m))]
  | .error (.exception m) =>
      Json.obj [("ResponseCode", Json.str "1"),
                ("errorMessage", Json.str ("Internal error: " ++ m))]

/-- The `try` body of `STKPushService.initiate_stk_push` in
`src/services/mpesa_service.py` (lines 92-135): token, POST,
`response.json()`, then `STKPushResponse.from_mpesa_response` (whose
dict reads raise on a non-dict response). -/
def initiate_stk_push_service_attempt (tok : Except PyExc String)
    (post : Except PyExc Json) : Except PyExc STKPushResponse := do
  let _accessToken ← tok
  let result ← post
  let fields ← jsonAsObj result
  return STKPushResponse.from_mpesa_response fields

/-- `STKPushService.initiate_stk_push`: the body wrapped by
`except requests.RequestException` and `except Exception`, each
returning `STKPushResponse.error` instead of raising. -/
def initiate_stk_push_service (tok : Except PyExc String)
    (post : Except PyExc Json) : STKPushResponse :=
  match initiate_stk_push_service_attempt tok post with
  | .ok r => r
  | .error (.requestException m) =>
      STKPushResponse.error ("Network error during STK push: " ++ m)
  | .error (.exception m) =>
      STKPushResponse.error ("Unexpected error during STK push: " ++ m)

/-! ## Request orchestrator (`handle_stk_push`, `app.py` lines 214-266) -/

/-- `phone_number[:3] + '***' + phone_number[-3:]`. -/
def maskPhone (p : String) : String :=
  String.mk (p.toList.take 3) ++ "***" ++
    String.mk (p.toList.drop (p.toList.length - 3))

/-- The response mapping at the end of `handle_stk_push`: given the
dict returned by `initiate_stk_push`, produce the HTTP status and JSON
body.  `ResponseCode == '0'` gives 200 with the echoed identifiers;
anything else gives 400 with the gateway's error message. -/
def handle_stk_push_response (result : List (String × Json))
    (phone_number : String) (amount : ℚ) : ℕ × Json :=
  if optEqStr (lookupJ "ResponseCode" result) "0" then
    (200, Json.obj
      [("success", Json.bool true),
       ("message", Json.str ("STK push sent to " ++ maskPhone phone_number ++
          " for KES " ++ toString amount ++ ". Check your phone.")),
       ("data", Json.obj
         [("MerchantRequestID", (lookupJ "MerchantRequestID" result).getD Json.null),
          ("CheckoutRequestID", (lookupJ "CheckoutRequestID" result).getD Json.null),
          ("ResponseCode", (lookupJ "ResponseCode" result).getD Json.null),
          ("ResponseDescription", (lookupJ "ResponseDescription" result).getD Json.null)])])
  else
    (400, Json.obj
      [("success", Json.bool false),
       ("message", Json.str ("STK push failed: " ++ pyStr (gatewayErrorMessage result)))])

/-- The rejection dict `initiate_stk_push` in `app.py` builds for each
kind of caught exception. -/
def appRejectionJson : PyExc → Json
  | .requestException m =>
      Json.obj [("ResponseCode", Json.str "1"),
                ("errorMessage", Json.str ("Network error: " ++ m))]
  | .exception m =>
      Json.obj [("ResponseCode", Json.str "1"),
                ("errorMessage", Json.str ("Internal error: " ++ m))]

/-- The rejection message `STKPushService.initiate_stk_push` builds
for each kind of caught exception. -/
def serviceRejectionMessage : PyExc → String
  | .requestException m => "Network error during STK push: " ++ m
  | .exception m => "Unexpected error during STK push: " ++ m

/-! ## Callback processor (`callback_example.py`) -/

/-- `float(value)` on a JSON value, as used in
`parse_callback_metadata`: numbers and booleans convert, strings are
parsed (raising `ValueError` when unparsable), other types raise. -/
def pyFloatJson : Json → Except PyExc ℚ
  | .num q => pure q
  | .bool b => pure (cond b 1 0)
  | .str s =>
      match parseDecimal s.toList with
      | some q => pure q
      | none => throw (.exception "ValueError: could not convert string to float")
  | _ => throw (.exception "TypeError: float() argument must be a string or a number")

/-- The `transaction_data` dict built by `parse_callback_metadata`:
a field is `none` while its key has not been assigned. -/
structure TransactionData where
  amount : Option ℚ := none
  mpesa_receipt : Option String := none
  phone_number : Option String := none
  transaction_date : Option String := none
  balance : Option ℚ := none
deriving DecidableEq

/-- One iteration of the `for item in items` loop of
`parse_callback_metadata` (lines 42-55): read `Name` (default `''`)
and `Value` (default `None`), then assign the recognized field.  A
falsy `Value` — in particular an absent one — defaults the numeric
fields to `0` and the string fields to `''`. -/
def parse_callback_item (td : TransactionData) (item : Json) :
    Except PyExc TransactionData := do
  let nameJ ← pyGet item "Name" (Json.str "")
  let valueJ ← pyGet item "Value" Json.null
  if pyEqStr nameJ "Amount" then
    if jsonTruthy valueJ then do
      let q ← pyFloatJson valueJ
      return { td with amount := some q }
    else return { td with amount := some 0 }
  else if pyEqStr nameJ "MpesaReceiptNumber" then
    let v := if jsonTruthy valueJ then pyStr valueJ else ""
    return { td with mpesa_receipt := some v }
  else if pyEqStr nameJ "PhoneNumber" then
    let v := if jsonTruthy valueJ then pyStr valueJ else ""
    return { td with phone_number := some v }
  else if pyEqStr nameJ "TransactionDate" then
    let v := if jsonTruthy valueJ then pyStr valueJ else ""
    return { td with transaction_date := some v }
  else if pyEqStr nameJ "Balance" then
    if jsonTruthy valueJ then do
      let q ← pyFloatJson valueJ
      return { td with balance := some q }
    else return { td with balance := some 0 }
  else return td

/-- `parse_callback_metadata` (lines 30-57): fold the loop body over
the metadata items, starting from the empty dict. -/
def parse_callback_metadata (items : List Json) : Except PyExc TransactionData :=
  items.foldlM parse_callback_item {}

/-- The outcome the callback handler dispatches on: the arguments of
`handle_successful_payment` and `handle_failed_payment`. -/
inductive CallbackOutcome where
  | success (transaction_data : TransactionData)
      (checkout_request_id merchant_request_id : Json) : CallbackOutcome
  | failure (result_code result_desc checkout_request_id merchant_request_id : Json) :
      CallbackOutcome

/-- The acknowledgement body the handler always returns. -/
def ackJson : Json :=
  Json.obj [("ResultCode", Json.num 0), ("ResultDesc", Json.str "Success")]

/-- The `try` body of `mpesa_callback` (lines 159-203): early success
acknowledgements for an empty body or a missing/empty `stkCallback`,
defaulted extraction of the identifiers and result code, then the
success/failure dispatch.  `body = none` models `request.get_json()`
returning `None`. -/
def mpesa_callback_process (body : Option Json) :
    Except PyExc (Option CallbackOutcome) := do
  match body with
  | none => return none
  | some callback_data =>
    if ¬ jsonTruthy callback_data then return none
    else do
      let bodyField ← pyGet callback_data "Body" (Json.obj [])
      let stk ← pyGet bodyField "stkCallback" (Json.obj [])
      if ¬ jsonTruthy stk then return none
      else do
        let merchant_request_id ← pyGet stk "MerchantRequestID" (Json.str "")
        let checkout_request_id ← pyGet stk "CheckoutRequestID" (Json.str "")
        let result_code ← pyGet stk "ResultCode" (Json.num (-1))
        let result_desc ← pyGet stk "ResultDesc" (Json.str "Unknown error")
        if pyEqInt result_code 0 then do
          let callback_metadata ← pyGet stk "CallbackMetadata" (Json.obj [])
          let itemsJ ← pyGet callback_metadata "Item" (Json.arr [])
          let items ← jsonAsList itemsJ
          let transaction_data ← parse_callback_metadata items
          return some (.success transaction_data checkout_request_id merchant_request_id)
        else
          return some
            (.failure result_code result_desc checkout_request_id merchant_request_id)

/-- `mpesa_callback`: the body above wrapped by `except Exception`,
which logs and still acknowledges.  The first component is the
dispatched outcome (`none` when no outcome was produced), the second
the HTTP response `(status, body)`. -/
def mpesa_callback (body : Option Json) : Option CallbackOutcome × (ℕ × Json) :=
  match mpesa_callback_process body with
  | .ok outcome => (outcome, (200, ackJson))
  | .error _ => (none, (200, ackJson))

/-! ## Helper lemmas -/

theorem digit_not_whitespace (c : Char) (h : c.isDigit = true) :
    c.isWhitespace = false := by
  by_contra hw
  rw [Bool.not_eq_false] at hw
  simp [Char.isWhitespace] at hw
  rcases hw with ((h1 | h1) | h1) | h1 <;> subst h1 <;> revert h <;> decide

theorem dropWhile_eq_self_of_all {p : Char → Bool} (s : List Char)
    (h : s.all (fun c => !p c) = true) : s.dropWhile p = s := by
  cases s with
  | nil => rfl
  | cons c t =>
      simp only [List.all_cons, Bool.and_eq_true, Bool.not_eq_true'] at h
      simp [List.dropWhile_cons, h.1]

theorem digit_not_space_dash_plus (c : Char) (h : c.isDigit = true) :
    (decide ¬(c = ' ' ∨ c = '-' ∨ c = '+')) = true := by
  simp only [decide_not, Bool.not_eq_true', decide_eq_false_iff_not]
  rintro (h1 | h1 | h1) <;> subst h1 <;> revert h <;> decide

/-- Stripping leaves an all-digit string unchanged. -/
theorem pyStrip_of_all_digit (s : List Char) (h : s.all Char.isDigit = true) :
    pyStrip s = s := by
  have hnw : ∀ t : List Char, t.all Char.isDigit = true →
      t.dropWhile Char.isWhitespace = t := by
    intro t ht
    apply dropWhile_eq_self_of_all
    rw [List.all_eq_true] at ht ⊢
    intro c hc
    simp [digit_not_whitespace c (ht c hc)]
  rw [pyStrip, hnw s h, hnw s.reverse (by rwa [List.all_reverse]),
    List.reverse_reverse]

/-- The strip-and-remove-separators cleaning of
`PhoneNumberValidator.validate` leaves an all-digit string unchanged. -/
theorem pyClean_of_all_digit (s : List Char) (h : s.all Char.isDigit = true) :
    PhoneNumberValidator.clean s = s := by
  rw [PhoneNumberValidator.clean, pyStrip_of_all_digit s h]
  apply List.filter_eq_self.mpr
  intro a ha
  rw [List.all_eq_true] at h
  exact digit_not_space_dash_plus a (h a ha)

theorem isPrefixOf_cons2 (a b : Char) (s : List Char)
    (h : List.isPrefixOf [a, b] s = true) : ∃ u, s = a :: b :: u := by
  cases s with
  | nil => simp [List.isPrefixOf] at h
  | cons x t =>
    cases t with
    | nil => simp [List.isPrefixOf] at h
    | cons y u =>
      simp [List.isPrefixOf] at h
      exact ⟨u, by rw [h.1, h.2]⟩

/-- `validate_phone_number` accepts `0` + subscriber digit + 8 digits,
rewriting the leading `0` to `254`. -/
theorem phone_app_accepts_local (c : Char) (hc : c = '7' ∨ c = '1')
    (u : List Char) (hu : u.length = 8) (hdig : u.all Char.isDigit = true) :
    validate_phone_number ('0' :: c :: u) =
      (some (['2', '5', '4'] ++ c :: u), none) := by
  rcases hc with rfl | rfl
  · have hall : ('0' :: '7' :: u).all Char.isDigit = true := by
      simp [List.all_cons, hdig]
    have hstrip := pyStrip_of_all_digit _ hall
    simp +decide [validate_phone_number, hstrip, pyIsDigit, hall,
      List.isPrefixOf, hu]
  · have hall : ('0' :: '1' :: u).all Char.isDigit = true := by
      simp [List.all_cons, hdig]
    have hstrip := pyStrip_of_all_digit _ hall
    simp +decide [validate_phone_number, hstrip, pyIsDigit, hall,
      List.isPrefixOf, hu]

/-- `validate_phone_number` accepts subscriber digit + 8 digits,
prefixing `254`. -/
theorem phone_app_accepts_short (c : Char) (hc : c = '7' ∨ c = '1')
    (u : List Char) (hu : u.length = 8) (hdig : u.all Char.isDigit = true) :
    validate_phone_number (c :: u) =
      (some (['2', '5', '4'] ++ c :: u), none) := by
  rcases hc with rfl | rfl
  · have hall : ('7' :: u).all Char.isDigit = true := by simp [List.all_cons, hdig]
    have hstrip := pyStrip_of_all_digit _ hall
    simp +decide [validate_phone_number, hstrip, pyIsDigit, hall,
      List.isPrefixOf, hu]
  · have hall : ('1' :: u).all Char.isDigit = true := by simp [List.all_cons, hdig]
    have hstrip := pyStrip_of_all_digit _ hall
    simp +decide [validate_phone_number, hstrip, pyIsDigit, hall,
      List.isPrefixOf, hu]

/-- `PhoneNumberValidator.validate` accepts every all-digit ten-digit
string starting with `0` (the `LOCAL_PHONE_PATTERN` regex constrains
only the first character). -/
theorem phone_val_accepts_local (s : List Char) (hlen : s.length = 10)
    (hdig : s.all Char.isDigit = true) (h0 : List.isPrefixOf ['0'] s = true) :
    PhoneNumberValidator.validate s =
      (some (['2', '5', '4'] ++ s.drop 1), none) := by
  have hne : s ≠ [] := by rintro rfl; simp at hlen
  have hclean := pyClean_of_all_digit _ hdig
  have hd : pyIsDigit s = true := by simp [pyIsDigit, hne, hdig]
  simp [PhoneNumberValidator.validate, hne, hclean, hd,
    PhoneNumberValidator.matchKenyan, PhoneNumberValidator.matchLocal,
    PhoneNumberValidator.matchShort, hlen, h0, hdig, List.drop_one]

/-- `PhoneNumberValidator.validate` accepts subscriber digit + 8
digits, prefixing `254`. -/
theorem phone_val_accepts_short (c : Char) (hc : c = '7' ∨ c = '1')
    (u : List Char) (hu : u.length = 8) (hdig : u.all Char.isDigit = true) :
    PhoneNumberValidator.validate (c :: u) =
      (some (['2', '5', '4'] ++ c :: u), none) := by
  rcases hc with rfl | rfl
  · have hall : ('7' :: u).all Char.isDigit = true := by simp [List.all_cons, hdig]
    have hclean := pyClean_of_all_digit _ hall
    simp +decide [PhoneNumberValidator.validate, hclean, pyIsDigit, hall,
      PhoneNumberValidator.matchKenyan, PhoneNumberValidator.matchLocal,
      PhoneNumberValidator.matchShort, List.isPrefixOf, hu]
  · have hall : ('1' :: u).all Char.isDigit = true := by simp [List.all_cons, hdig]
    have hclean := pyClean_of_all_digit _ hall
    simp +decide [PhoneNumberValidator.validate, hclean, pyIsDigit, hall,
      PhoneNumberValidator.matchKenyan, PhoneNumberValidator.matchLocal,
      PhoneNumberValidator.matchShort, List.isPrefixOf, hu]

/-! ## Claim theorems -/

/-- C1: for any cache state of the credential pair, a `getToken` call
strictly before the cached entry's `expires_at` returns the identical
cached token, leaves the cache unchanged and performs no upstream
fetch; when no entry exists or the time has reached `expires_at`, the
call performs exactly one upstream fetch, stores the fetched token
with `expires_at = now + (60 - 5)` minutes, and returns it.  Since the
state is quantified, this covers every call of every call sequence. -/
theorem get_access_token_cache_semantics (cache : Option AccessToken) (now : ℕ)
    (fetched : String) :
    (∀ entry, cache = some entry → now < entry.expires_at →
      get_access_token cache now fetched = (entry.token, some entry, 0)) ∧
    ((cache = none ∨ ∃ entry, cache = some entry ∧ ¬ now < entry.expires_at) →
      get_access_token cache now fetched =
        (fetched,
         some ⟨fetched, now + (tokenValidityMinutes - tokenSafetyBufferMinutes)⟩,
         1)) := by
  constructor
  · rintro entry rfl h
    simp [get_access_token, AccessToken.is_valid, AccessToken.is_expired,
      Nat.not_le.mpr h]
  · rintro (rfl | ⟨entry, rfl, h⟩)
    · rfl
    · simp [get_access_token, AccessToken.is_valid, AccessToken.is_expired,
        Nat.not_lt.mp h, tokenValidityMinutes, tokenSafetyBufferMinutes]

/-- C1 witness: with an entry expiring at minute 10, a call at minute
5 returns the cached token with no fetch, and a call at minute 10
fetches once and stores the new token until minute 65. -/
theorem get_access_token_cache_semantics_witness :
    get_access_token (some ⟨"cached", 10⟩) 5 "fresh" =
      ("cached", some ⟨"cached", 10⟩, 0) ∧
    get_access_token (some ⟨"cached", 10⟩) 10 "fresh" =
      ("fresh", some ⟨"fresh", 65⟩, 1) := by
  constructor
  · exact (get_access_token_cache_semantics (some ⟨"cached", 10⟩) 5 "fresh").1
      ⟨"cached", 10⟩ rfl (by decide)
  · exact (get_access_token_cache_semantics (some ⟨"cached", 10⟩) 10 "fresh").2
      (Or.inr ⟨⟨"cached", 10⟩, rfl, by decide⟩)

/-- C3: whatever body the callback endpoint receives — no parseable
body at all, a body missing the nested `stkCallback` object, or one
whose processing raises internally — the handler responds HTTP 200
with `ResultCode 0, ResultDesc "Success"`; no input produces any
other status or body. -/
theorem mpesa_callback_always_acks (body : Option Json) :
    (mpesa_callback body).2 =
      (200, Json.obj [("ResultCode", Json.num 0), ("ResultDesc", Json.str "Success")]) := by
  unfold mpesa_callback
  cases mpesa_callback_process body <;> rfl

/-- C6: both amount validators reject inputs `float()` cannot convert,
reject converted values that are `≤ 0` or strictly above the 70000
maximum, and accept every value strictly between 0 and the maximum,
returning the parsed value. -/
theorem validate_amount_spec (v : PyVal) :
    (pyFloat v = none →
      (validate_amount v).1 = none ∧ (AmountValidator.validate v).1 = none) ∧
    (∀ q, pyFloat v = some q → q ≤ 0 →
      (validate_amount v).1 = none ∧ (AmountValidator.validate v).1 = none) ∧
    (∀ q, pyFloat v = some q → 70000 < q →
      (validate_amount v).1 = none ∧ (AmountValidator.validate v).1 = none) ∧
    (∀ q, pyFloat v = some q → 0 < q → q < 70000 →
      validate_amount v = (some q, none) ∧
      AmountValidator.validate v = (some q, none)) := by
  refine ⟨?_, ?_, ?_, ?_⟩
  · intro h
    constructor
    · simp [validate_amount, h]
    · by_cases hv : v = PyVal.none_ <;> simp [AmountValidator.validate, hv, h]
  · intro q h hq
    have hv : v ≠ PyVal.none_ := by rintro rfl; simp [pyFloat] at h
    constructor
    · simp [validate_amount, h, hq]
    · simp [AmountValidator.validate, hv, h, hq]
  · intro q h hq
    have hv : v ≠ PyVal.none_ := by rintro rfl; simp [pyFloat] at h
    have h0 : ¬ q ≤ 0 := by linarith
    constructor
    · simp [validate_amount, h, h0, hq]
    · simp [AmountValidator.validate, AmountValidator.MAX_AMOUNT, hv, h, h0, hq]
  · intro q h h0 h1
    have hv : v ≠ PyVal.none_ := by rintro rfl; simp [pyFloat] at h
    constructor
    · simp [validate_amount, h, not_le.mpr h0, not_lt.mpr h1.le]
    · simp [AmountValidator.validate, AmountValidator.MAX_AMOUNT, hv, h,
        not_le.mpr h0, not_lt.mpr h1.le]

/-- C6 witness: a non-numeric string, `-5` and `100000` are rejected,
`50` is accepted by both validators. -/
theorem validate_amount_spec_witness :
    (validate_amount (PyVal.str "abc".toList)).1 = none ∧
    (validate_amount (PyVal.num (-5))).1 = none ∧
    (validate_amount (PyVal.num 100000)).1 = none ∧
    validate_amount (PyVal.num 50) = (some 50, none) ∧
    AmountValidator.validate (PyVal.num 50) = (some 50, none) := by
  refine ⟨?_, ?_, ?_, ?_, ?_⟩
  · exact ((validate_amount_spec (PyVal.str "abc".toList)).1 (by decide)).1
  · exact ((validate_amount_spec (PyVal.num (-5))).2.1 (-5) rfl (by norm_num)).1
  · exact ((validate_amount_spec (PyVal.num 100000)).2.2.1 100000 rfl
      (by norm_num)).1
  · exact ((validate_amount_spec (PyVal.num 50)).2.2.2 50 rfl (by norm_num)
      (by norm_num)).1
  · exact ((validate_amount_spec (PyVal.num 50)).2.2.2 50 rfl (by norm_num)
      (by norm_num)).2

/-- C8: the boundary value 70000 — the configured maximum — is
accepted by both amount validators, as a number and as a numeric
string, because only values strictly greater than the maximum are
rejected. -/
theorem validate_amount_accepts_maximum :
    validate_amount (PyVal.num 70000) = (some 70000, none) ∧
    validate_amount (PyVal.str "70000".toList) = (some 70000, none) ∧
    AmountValidator.validate (PyVal.num 70000) = (some 70000, none) ∧
    AmountValidator.validate (PyVal.str "70000".toList) = (some 70000, none) := by
  refine ⟨?_, ?_, ?_, ?_⟩ <;> decide

/-- C9: every amount strictly between 0 and 1 passes amount
validation, yet the payload builders truncate it with `int`, so the
outbound `Amount` field is 0. -/
theorem payload_truncates_subunit_amounts (q : ℚ) (h0 : 0 < q) (h1 : q < 1)
    (phone reference description password timestamp callback_url : String)
    (shortcode : ℤ) :
    validate_amount (PyVal.num q) = (some q, none) ∧
    (STKPushRequest.to_mpesa_payload ⟨phone, q, reference, description⟩
        shortcode password timestamp callback_url).Amount = 0 ∧
    (app_stk_payload phone q reference shortcode password timestamp
        callback_url).Amount = 0 := by
  have hfloor : ⌊q⌋ = 0 := by
    rw [Int.floor_eq_zero_iff]
    exact Set.mem_Ico.mpr ⟨h0.le, h1⟩
  refine ⟨?_, ?_, ?_⟩
  · simp [validate_amount, pyFloat, not_le.mpr h0,
      not_lt.mpr (by linarith : q ≤ 70000)]
  · simp [STKPushRequest.to_mpesa_payload, pyInt, h0.le, hfloor]
  · simp [app_stk_payload, pyInt, h0.le, hfloor]

/-- C9 witness: the amount 1/2 validates, and the payload carries
`Amount = 0`. -/
theorem payload_truncates_subunit_amounts_witness :
    validate_amount (PyVal.num (1/2)) = (some (1/2), none) ∧
    (STKPushRequest.to_mpesa_payload ⟨"254712345678", 1/2, "PAY_1", "d"⟩
        174379 "pw" "20250101120000" "https://example.com/cb").Amount = 0 := by
  have h := payload_truncates_subunit_amounts (1/2) (by norm_num) (by norm_num)
    "254712345678" "PAY_1" "d" "pw" "20250101120000" "https://example.com/cb" 174379
  exact ⟨h.1, h.2.1⟩

/-- C4: for any gateway response dict, a `ResponseCode` equal to the
string `"0"` makes the orchestrator answer 200 with `success: true`
and the echoed `MerchantRequestID` / `CheckoutRequestID` (and makes
`STKPushResponse.from_mpesa_response` a success echoing the same
identifiers); any other value — or an absent field — yields 400 with
`success: false` and a message carrying the gateway's `errorMessage`
or `ResponseDescription`. -/
theorem handle_stk_push_response_spec (result : List (String × Json))
    (phone : String) (amount : ℚ) :
    (optEqStr (lookupJ "ResponseCode" result) "0" = true →
      handle_stk_push_response result phone amount =
        (200, Json.obj
          [("success", Json.bool true),
           ("message", Json.str ("STK push sent to " ++ maskPhone phone ++
              " for KES " ++ toString amount ++ ". Check your phone.")),
           ("data", Json.obj
             [("MerchantRequestID", (lookupJ "MerchantRequestID" result).getD Json.null),
              ("CheckoutRequestID", (lookupJ "CheckoutRequestID" result).getD Json.null),
              ("ResponseCode", (lookupJ "ResponseCode" result).getD Json.null),
              ("ResponseDescription", (lookupJ "ResponseDescription" result).getD Json.null)])]) ∧
      (STKPushResponse.from_mpesa_response result).success = true ∧
      (STKPushResponse.from_mpesa_response result).merchant_request_id =
        lookupJ "MerchantRequestID" result ∧
      (STKPushResponse.from_mpesa_response result).checkout_request_id =
        lookupJ "CheckoutRequestID" result) ∧
    (optEqStr (lookupJ "ResponseCode" result) "0" = false →
      handle_stk_push_response result phone amount =
        (400, Json.obj
          [("success", Json.bool false),
           ("message", Json.str ("STK push failed: " ++
              pyStr (gatewayErrorMessage result)))]) ∧
      (STKPushResponse.from_mpesa_response result).success = false ∧
      (STKPushResponse.from_mpesa_response result).message =
        "STK push failed: " ++ pyStr (gatewayErrorMessage result)) := by
  constructor
  · intro h
    refine ⟨?_, ?_, ?_, ?_⟩ <;>
      simp [handle_stk_push_response, STKPushResponse.from_mpesa_response, h]
  · intro h
    refine ⟨?_, ?_, ?_⟩ <;>
      simp [handle_stk_push_response, STKPushResponse.from_mpesa_response, h]

/-- C4 witness: a `ResponseCode "0"` response maps to 200 and a
success record; a `ResponseCode "1"` response with an `errorMessage`
maps to 400 and a failure record. -/
theorem handle_stk_push_response_spec_witness :
    (handle_stk_push_response
      [("ResponseCode", Json.str "0"), ("MerchantRequestID", Json.str "m1"),
       ("CheckoutRequestID", Json.str "c1")] "254712345678" 50).1 = 200 ∧
    (handle_stk_push_response
      [("ResponseCode", Json.str "1"), ("errorMessage", Json.str "boom")]
      "254712345678" 50).1 = 400 ∧
    (STKPushResponse.from_mpesa_response
      [("ResponseCode", Json.str "1"), ("errorMessage", Json.str "boom")]).success =
      false := by
  refine ⟨?_, ?_, ?_⟩
  · have h := ((handle_stk_push_response_spec
      [("ResponseCode", Json.str "0"), ("MerchantRequestID", Json.str "m1"),
       ("CheckoutRequestID", Json.str "c1")] "254712345678" 50).1 rfl).1
    rw [h]
  · have h := ((handle_stk_push_response_spec
      [("ResponseCode", Json.str "1"), ("errorMessage", Json.str "boom")]
      "254712345678" 50).2 rfl).1
    rw [h]
  · exact ((handle_stk_push_response_spec
      [("ResponseCode", Json.str "1"), ("errorMessage", Json.str "boom")]
      "254712345678" 50).2 rfl).2.1

/-- C5: when the token fetch or the payment POST fails with any
exception — network-level or malformed-data — both payment-initiation
functions return a structured rejection describing the failure
(`ResponseCode "1"` dict, resp. `success = false` response object);
being total functions into plain result types, they propagate no
exception to their caller. -/
theorem initiate_stk_push_rejects_failures (tok : Except PyExc String)
    (post : Except PyExc Json) (e : PyExc)
    (h : tok = .error e ∨ ∃ t, tok = .ok t ∧ post = .error e) :
    initiate_stk_push_app tok post = appRejectionJson e ∧
    initiate_stk_push_service tok post =
      STKPushResponse.error (serviceRejectionMessage e) ∧
    (initiate_stk_push_service tok post).success = false := by
  have hmain : initiate_stk_push_app_attempt tok post = .error e ∧
      initiate_stk_push_service_attempt tok post = .error e := by
    rcases h with rfl | ⟨t, rfl, rfl⟩ <;> exact ⟨rfl, rfl⟩
  have happ : initiate_stk_push_app tok post = appRejectionJson e := by
    unfold initiate_stk_push_app
    rw [hmain.1]
    cases e <;> rfl
  have hsvc : initiate_stk_push_service tok post =
      STKPushResponse.error (serviceRejectionMessage e) := by
    unfold initiate_stk_push_service
    rw [hmain.2]
    cases e <;> rfl
  exact ⟨happ, hsvc, by rw [hsvc]; rfl⟩

/-- C5 witness: a timed-out token fetch yields the `ResponseCode "1"`
network-error dict; a malformed payment response yields a failed
service response. -/
theorem initiate_stk_push_rejects_failures_witness :
    initiate_stk_push_app (Except.error (PyExc.requestException "timeout"))
        (Except.ok Json.null) =
      Json.obj [("ResponseCode", Json.str "1"),
                ("errorMessage", Json.str ("Network error: " ++ "timeout"))] ∧
    (initiate_stk_push_service (Except.ok "token")
        (Except.error (PyExc.exception "bad json"))).success = false := by
  constructor
  · exact (initiate_stk_push_rejects_failures _ _
      (PyExc.requestException "timeout") (Or.inl rfl)).1
  · exact (initiate_stk_push_rejects_failures (Except.ok "token") _
      (PyExc.exception "bad json") (Or.inr ⟨"token", rfl, rfl⟩)).2.2

/-- C2 counterexample: the claim's rejection clause fails on
`PhoneNumberValidator.validate` — the 10-digit all-digit input
`"0212345678"`, whose prefix `"02"` is not a configured trunk prefix
(`"07"`/`"01"`), is accepted and rewritten to `"254212345678"`
instead of being rejected. -/
theorem phone_claim_counterexample :
    PhoneNumberValidator.validate "0212345678".toList =
      (some "254212345678".toList, none) := by decide

/-- C2 (amended): every 10-digit all-digit input starting with `"07"`
or `"01"` is accepted by both validators with result `"254"` + the
trailing 9 digits, identical to the result on the 9-digit input
obtained by dropping the leading `"0"`; 10-digit inputs with other
prefixes are rejected by `validate_phone_number` (`app.py`), while
`PhoneNumberValidator.validate` accepts every 10-digit all-digit
input starting with `"0"`; 9-digit all-digit inputs not starting
with `"7"`/`"1"` are rejected by both. -/
theorem validate_phone_trunk_spec (s : List Char)
    (hlen : s.length = 10) (hdig : s.all Char.isDigit = true) :
    (List.isPrefixOf ['0', '7'] s = true ∨ List.isPrefixOf ['0', '1'] s = true →
      validate_phone_number s = (some (['2', '5', '4'] ++ s.drop 1), none) ∧
      PhoneNumberValidator.validate s = (some (['2', '5', '4'] ++ s.drop 1), none) ∧
      validate_phone_number s = validate_phone_number (s.drop 1) ∧
      PhoneNumberValidator.validate s = PhoneNumberValidator.validate (s.drop 1)) ∧
    (List.isPrefixOf ['0', '7'] s = false → List.isPrefixOf ['0', '1'] s = false →
      (validate_phone_number s).1 = none) ∧
    (List.isPrefixOf ['0'] s = true →
      PhoneNumberValidator.validate s = (some (['2', '5', '4'] ++ s.drop 1), none)) ∧
    (∀ t : List Char, t.length = 9 → t.all Char.isDigit = true →
      List.isPrefixOf ['7'] t = false → List.isPrefixOf ['1'] t = false →
      (validate_phone_number t).1 = none ∧
      (PhoneNumberValidator.validate t).1 = none) := by
  refine ⟨?_, ?_, ?_, ?_⟩
  · rintro (hp | hp)
    · obtain ⟨u, rfl⟩ := isPrefixOf_cons2 _ _ _ hp
      have hu : u.length = 8 := by simpa using hlen
      have hdu : u.all Char.isDigit = true := by simpa using hdig
      have h1 := phone_app_accepts_local '7' (Or.inl rfl) u hu hdu
      have h2 := phone_app_accepts_short '7' (Or.inl rfl) u hu hdu
      have h3 := phone_val_accepts_local _ hlen hdig rfl
      have h4 := phone_val_accepts_short '7' (Or.inl rfl) u hu hdu
      exact ⟨h1, h3, by rw [h1]; exact h2.symm, by rw [h3]; exact h4.symm⟩
    · obtain ⟨u, rfl⟩ := isPrefixOf_cons2 _ _ _ hp
      have hu : u.length = 8 := by simpa using hlen
      have hdu : u.all Char.isDigit = true := by simpa using hdig
      have h1 := phone_app_accepts_local '1' (Or.inr rfl) u hu hdu
      have h2 := phone_app_accepts_short '1' (Or.inr rfl) u hu hdu
      have h3 := phone_val_accepts_local _ hlen hdig rfl
      have h4 := phone_val_accepts_short '1' (Or.inr rfl) u hu hdu
      exact ⟨h1, h3, by rw [h1]; exact h2.symm, by rw [h3]; exact h4.symm⟩
  · intro h07 h01
    have hne : s ≠ [] := by rintro rfl; simp at hlen
    have hstrip := pyStrip_of_all_digit _ hdig
    have hd : pyIsDigit s = true := by simp [pyIsDigit, hne, hdig]
    by_cases h254 : List.isPrefixOf ['2', '5', '4'] s = true
    · simp [validate_phone_number, hne, hstrip, hd, h254, hlen]
    · by_cases h7 : List.isPrefixOf ['7'] s = true
      · simp [validate_phone_number, hne, hstrip, hd, h254, h07, h01, h7, hlen]
      · by_cases h1 : List.isPrefixOf ['1'] s = true
        · simp [validate_phone_number, hne, hstrip, hd, h254, h07, h01, h7, h1,
            hlen]
        · simp [validate_phone_number, hne, hstrip, hd, h254, h07, h01, h7, h1]
  · exact phone_val_accepts_local s hlen hdig
  · intro t hlen9 hdig9 h7 h1
    have hne : t ≠ [] := by rintro rfl; simp at hlen9
    have hstrip := pyStrip_of_all_digit _ hdig9
    have hclean := pyClean_of_all_digit _ hdig9
    have hd : pyIsDigit t = true := by simp [pyIsDigit, hne, hdig9]
    constructor
    · by_cases h254 : List.isPrefixOf ['2', '5', '4'] t = true
      · simp [validate_phone_number, hne, hstrip, hd, h254, hlen9]
      · by_cases h07 : List.isPrefixOf ['0', '7'] t = true
        · simp [validate_phone_number, hne, hstrip, hd, h254, h07, hlen9]
        · by_cases h01 : List.isPrefixOf ['0', '1'] t = true
          · simp [validate_phone_number, hne, hstrip, hd, h254, h07, h01, hlen9]
          · simp [validate_phone_number, hne, hstrip, hd, h254, h07, h01, h7, h1]
    · simp [PhoneNumberValidator.validate, hne, hclean, hd,
        PhoneNumberValidator.matchKenyan, PhoneNumberValidator.matchLocal,
        PhoneNumberValidator.matchShort, hlen9, h7, h1, hdig9]

/-- C2 witness: `"0712345678"` normalizes to `"254712345678"` in both
validators, agreeing with `"712345678"`; the 10-digit `"0912345678"`
is rejected by `app.py`'s validator (but accepted by the layered one);
the 9-digit `"912345678"` is rejected. -/
theorem validate_phone_trunk_spec_witness :
    validate_phone_number "0712345678".toList =
      (some "254712345678".toList, none) ∧
    validate_phone_number "0712345678".toList =
      validate_phone_number "712345678".toList ∧
    (validate_phone_number "0912345678".toList).1 = none ∧
    PhoneNumberValidator.validate "0912345678".toList =
      (some "254912345678".toList, none) ∧
    (validate_phone_number "912345678".toList).1 = none := by
  refine ⟨?_, ?_, ?_, ?_, ?_⟩
  · exact ((validate_phone_trunk_spec "0712345678".toList (by decide)
      (by decide)).1 (Or.inl (by decide))).1
  · exact ((validate_phone_trunk_spec "0712345678".toList (by decide)
      (by decide)).1 (Or.inl (by decide))).2.2.1
  · exact (validate_phone_trunk_spec "0912345678".toList (by decide)
      (by decide)).2.1 (by decide) (by decide)
  · exact (validate_phone_trunk_spec "0912345678".toList (by decide)
      (by decide)).2.2.1 (by decide)
  · exact ((validate_phone_trunk_spec "0712345678".toList (by decide)
      (by decide)).2.2.2 "912345678".toList (by decide) (by decide)
      (by decide) (by decide)).1

/-- C7: a callback whose `stkCallback` carries `ResultCode 0` is
dispatched as a `Success` outcome built by `parse_callback_metadata`
from the metadata item list; in that mapping, each recognized item
name (`Amount`, `MpesaReceiptNumber`, `PhoneNumber`,
`TransactionDate`, `Balance`) whose `Value` is absent defaults the
numeric fields to `0` and the string fields to `""`. -/
theorem callback_success_mapping (mid cid : Json) (items : List Json)
    (td : TransactionData) (h : parse_callback_metadata items = .ok td) :
    mpesa_callback (some (Json.obj [("Body", Json.obj [("stkCallback", Json.obj
        [("MerchantRequestID", mid), ("CheckoutRequestID", cid),
         ("ResultCode", Json.num 0),
         ("ResultDesc", Json.str "The service request is processed successfully."),
         ("CallbackMetadata", Json.obj [("Item", Json.arr items)])])])]))
      = (some (.success td cid mid), (200, ackJson)) ∧
    parse_callback_metadata [Json.obj [("Name", Json.str "Amount")]] =
      .ok { amount := some 0 } ∧
    parse_callback_metadata [Json.obj [("Name", Json.str "MpesaReceiptNumber")]] =
      .ok { mpesa_receipt := some "" } ∧
    parse_callback_metadata [Json.obj [("Name", Json.str "PhoneNumber")]] =
      .ok { phone_number := some "" } ∧
    parse_callback_metadata [Json.obj [("Name", Json.str "TransactionDate")]] =
      .ok { transaction_date := some "" } ∧
    parse_callback_metadata [Json.obj [("Name", Json.str "Balance")]] =
      .ok { balance := some 0 } := by
  refine ⟨?_, rfl, rfl, rfl, rfl, rfl⟩
  have hp : mpesa_callback_process (some (Json.obj [("Body", Json.obj
      [("stkCallback", Json.obj
        [("MerchantRequestID", mid), ("CheckoutRequestID", cid),
         ("ResultCode", Json.num 0),
         ("ResultDesc", Json.str "The service request is processed successfully."),
         ("CallbackMetadata", Json.obj [("Item", Json.arr items)])])])]))
      = .ok (some (.success td cid mid)) := by
    simp [mpesa_callback_process, pyGet, lookupJ, jsonTruthy, pyEqInt,
      jsonAsList, h, bind, Except.bind, pure, Except.pure]
  unfold mpesa_callback
  rw [hp]

/-- C7 witness: the specification's own example — metadata items
`Amount 100`, `MpesaReceiptNumber "ABC123"`,
`PhoneNumber "254712345678"` under `ResultCode 0` — produces the
corresponding `Success` outcome and the 200 acknowledgement. -/
theorem callback_success_mapping_witness :
    mpesa_callback (some (Json.obj [("Body", Json.obj [("stkCallback", Json.obj
        [("MerchantRequestID", Json.str "m1"), ("CheckoutRequestID", Json.str "c1"),
         ("ResultCode", Json.num 0),
         ("ResultDesc", Json.str "The service request is processed successfully."),
         ("CallbackMetadata", Json.obj [("Item", Json.arr
           [Json.obj [("Name", Json.str "Amount"), ("Value", Json.num 100)],
            Json.obj [("Name", Json.str "MpesaReceiptNumber"),
                      ("Value", Json.str "ABC123")],
            Json.obj [("Name", Json.str "PhoneNumber"),
                      ("Value", Json.str "254712345678")]])])])])]))
      = (some (.success
          { amount := some 100, mpesa_receipt := some "ABC123",
            phone_number := some "254712345678" }
          (Json.str "c1") (Json.str "m1")), (200, ackJson)) :=
  (callback_success_mapping (Json.str "m1") (Json.str "c1")
    [Json.obj [("Name", Json.str "Amount"), ("Value", Json.num 100)],
     Json.obj [("Name", Json.str "MpesaReceiptNumber"), ("Value", Json.str "ABC123")],
     Json.obj [("Name", Json.str "PhoneNumber"), ("Value", Json.str "254712345678")]]
    { amount := some 100, mpesa_receipt := some "ABC123",
      phone_number := some "254712345678" } rfl).1

/-- C10: every non-empty `stkCallback` object with no `ResultCode`
field is not treated as a benign no-op: the handler substitutes the
default `-1` and dispatches a `Failure` outcome whose description is
the `ResultDesc` field when present and defaults to
`"Unknown error"` when `ResultDesc` is also absent, while still
acknowledging with HTTP 200. -/
theorem callback_missing_result_code (fields : List (String × Json))
    (hne : fields ≠ [])
    (hrc : lookupJ "ResultCode" fields = none) :
    mpesa_callback (some (Json.obj [("Body", Json.obj
        [("stkCallback", Json.obj fields)])]))
      = (some (.failure (Json.num (-1))
          ((lookupJ "ResultDesc" fields).getD (Json.str "Unknown error"))
          ((lookupJ "CheckoutRequestID" fields).getD (Json.str ""))
          ((lookupJ "MerchantRequestID" fields).getD (Json.str ""))),
         (200, ackJson)) := by
  have hp : mpesa_callback_process (some (Json.obj [("Body", Json.obj
      [("stkCallback", Json.obj fields)])]))
      = .ok (some (.failure (Json.num (-1))
          ((lookupJ "ResultDesc" fields).getD (Json.str "Unknown error"))
          ((lookupJ "CheckoutRequestID" fields).getD (Json.str ""))
          ((lookupJ "MerchantRequestID" fields).getD (Json.str "")))) := by
    simp [mpesa_callback_process, pyGet, lookupJ, jsonTruthy, pyEqInt,
      hrc, hne, bind, Except.bind, pure, Except.pure]
  unfold mpesa_callback
  rw [hp]

/-- C10 witness: an `stkCallback` carrying only a `CheckoutRequestID`
yields `Failure` with code `-1` and the default description
`"Unknown error"`; one that additionally carries
`ResultDesc "Request cancelled by user"` yields `Failure` with code
`-1` and that description; both are acknowledged with 200. -/
theorem callback_missing_result_code_witness :
    mpesa_callback (some (Json.obj [("Body", Json.obj
        [("stkCallback", Json.obj [("CheckoutRequestID", Json.str "c1")])])]))
      = (some (.failure (Json.num (-1)) (Json.str "Unknown error")
          (Json.str "c1") (Json.str "")),
         (200, ackJson)) ∧
    mpesa_callback (some (Json.obj [("Body", Json.obj
        [("stkCallback", Json.obj
          [("ResultDesc", Json.str "Request cancelled by user"),
           ("CheckoutRequestID", Json.str "c1")])])]))
      = (some (.failure (Json.num (-1))
          (Json.str "Request cancelled by user")
          (Json.str "c1") (Json.str "")),
         (200, ackJson)) := by
  constructor
  · exact callback_missing_result_code [("CheckoutRequestID", Json.str "c1")]
      (by simp) rfl
  · exact callback_missing_result_code
      [("ResultDesc", Json.str "Request cancelled by user"),
       ("CheckoutRequestID", Json.str "c1")] (by simp) rfl
